import Mathlib

/-
Verification of the tickets service (Go).

This development gives a shallow embedding of:
  * the OpsBooking read-model projector (db/ops_booking_read_model.go:
    OnBookingMade, OnTicketBookingConfirmed, OnTicketPrinted,
    OnTicketRefunded, the createReadModel / updateByBookingID /
    updateByTicketID / updateReadModel / find / unmarshal helpers,
    FindByID, FindAll);
  * the message dispatch pipeline (message/middleware.go useMiddlewares:
    Recoverer, Retry with MaxRetries 3, tracing, correlation id, logging
    and metrics middlewares), with the retry loop and the ack/nack
    conversion of the router modelled from the specification of the
    underlying messaging library;
  * the events splitter consumer handler (message/router.go NewRouter);
  * the startup ordering of Service.Run (service/service.go): the HTTP
    server goroutine first blocks on the message router readiness channel.

The SQL table read_model_ops_bookings (payload, booking_id) is modelled as
an association list from booking_id to the stored JSON image of the
OpsBooking aggregate.  A transaction that returns an error is rolled back,
so a failing handler is modelled as returning an error and no new table
state.  Wall-clock time (time.Now) is passed to each handler explicitly as
a natural number.
-/

namespace Tickets

/-! ## Association lists: the model of Go maps and of the SQL table -/

/-- Lookup of a key in an association list: the first binding wins.
Models both Go map indexing (maps have unique keys) and a SQL point query
on the key column. -/
def lookupKey {β : Type} : List (String × β) → String → Option β
  | [], _ => none
  | (k, v) :: rest, key => if k = key then some v else lookupKey rest key

/-- Insert or overwrite a key in an association list: the first binding
with the key is replaced in place, otherwise the binding is appended.
Models Go map assignment and a SQL upsert on the key column. -/
def insertKey {β : Type} : List (String × β) → String → β → List (String × β)
  | [], key, v => [(key, v)]
  | (k, w) :: rest, key, v =>
    if k = key then (key, v) :: rest else (k, w) :: insertKey rest key v

/-- Key membership test; models the jsonb key-exists operator used by
findByTicketID and the Go comma-ok map read. -/
def hasKey {β : Type} (l : List (String × β)) (key : String) : Bool :=
  (lookupKey l key).isSome

/-- The keys of an association list, in order. -/
def keysOf {β : Type} (l : List (String × β)) : List String :=
  l.map Prod.fst

/-! ## Data model (entities package)

The entities structs are not part of the provided sources; their fields are
modelled from the specification data model (section 3) and from every field
access the projector performs.  Timestamps are natural numbers, 0 being the
Go zero time. -/

/-- Modelled from the spec: the nested per-ticket projection OpsTicket with
fields price, currency, customer_email, confirmed_at, printed_at,
printed_file_name, receipt_issued_at, receipt_number, refunded_at. -/
structure OpsTicket where
  priceAmount : String
  priceCurrency : String
  customerEmail : String
  confirmedAt : Nat
  printedAt : Nat
  printedFileName : String
  receiptIssuedAt : Nat
  receiptNumber : String
  refundedAt : Nat
deriving DecidableEq

/-- The Go zero value of OpsTicket, produced by indexing a map at an
absent key. -/
instance : Inhabited OpsTicket :=
  ⟨{ priceAmount := "", priceCurrency := "", customerEmail := ""
     confirmedAt := 0, printedAt := 0, printedFileName := ""
     receiptIssuedAt := 0, receiptNumber := "", refundedAt := 0 }⟩

/-- Modelled from the spec: the OpsBooking aggregate
(booking_id, booked_at, last_update, tickets).  This is the in-memory value
every projector code path works with; on every such path the tickets map is
non-nil (it is built either by OnBookingMade with an explicit empty map
literal or by unmarshalReadModelFromDB, which substitutes an empty map for
a nil one). -/
structure OpsBooking where
  bookingID : String
  bookedAt : Nat
  lastUpdate : Nat
  tickets : List (String × OpsTicket)
deriving DecidableEq

/-- The stored JSON image of an OpsBooking row payload.  The tickets field
is optional: none models a JSON null or absent tickets object, which Go
deserializes to a nil map.  This is the type unmarshalReadModelFromDB
guards against. -/
structure StoredBooking where
  bookingID : String
  bookedAt : Nat
  lastUpdate : Nat
  tickets : Option (List (String × OpsTicket))
deriving DecidableEq

/-- json.Marshal of an in-memory OpsBooking: every projector write path
marshals a value whose tickets map is non-nil, so the stored image always
carries a concrete tickets object. -/
def marshalReadModel (b : OpsBooking) : StoredBooking :=
  { bookingID := b.bookingID, bookedAt := b.bookedAt
    lastUpdate := b.lastUpdate, tickets := some b.tickets }

/-- OpsBookingReadModel.unmarshalReadModelFromDB: deserialize a stored
payload and, when the deserialized tickets map is nil, substitute an empty
map before returning. -/
def unmarshalReadModelFromDB (row : StoredBooking) : OpsBooking :=
  { bookingID := row.bookingID, bookedAt := row.bookedAt
    lastUpdate := row.lastUpdate, tickets := row.tickets.getD [] }

/-- The read_model_ops_bookings table: rows (booking_id, payload) keyed by
the booking_id column, which carries a unique constraint
(ON CONFLICT (booking_id)). -/
abbrev Db : Type := List (String × StoredBooking)

/-- Every reachable table state satisfies this: the booking_id column of a
row always equals the booking_id inside the stored payload, because both
insert statements of the projector pass the payload and its BookingID field
to the same VALUES list. -/
def DbWellFormed (db : Db) : Prop :=
  ∀ kv ∈ db, (kv : String × StoredBooking).2.bookingID = kv.1

instance (db : Db) : Decidable (DbWellFormed db) := by
  unfold DbWellFormed; infer_instance

/-! ## Events (entities package), modelled from the spec envelope and the
fields each handler reads -/

/-- Modelled from the spec: the event header carrying id and published_at. -/
structure MessageHeader where
  id : String
  publishedAt : Nat
deriving DecidableEq

/-- Modelled from the spec: money as amount and currency strings. -/
structure Money where
  amount : String
  currency : String
deriving DecidableEq

/-- Modelled from the spec: BookingMade_v1, the creating event of the
OpsBooking projection; the handler reads Header.PublishedAt and BookingID. -/
structure BookingMade_v1 where
  header : MessageHeader
  bookingID : String
deriving DecidableEq

/-- Modelled from the spec: TicketBookingConfirmed_v1; the handler reads
Header.PublishedAt, BookingID, TicketID, Price and CustomerEmail. -/
structure TicketBookingConfirmed_v1 where
  header : MessageHeader
  bookingID : String
  ticketID : String
  price : Money
  customerEmail : String
deriving DecidableEq

/-- Modelled from the spec: TicketPrinted_v1; the handler reads
Header.PublishedAt, TicketID and FileName. -/
structure TicketPrinted_v1 where
  header : MessageHeader
  ticketID : String
  fileName : String
deriving DecidableEq

/-- Modelled from the spec: TicketRefunded_v1; the handler reads
Header.PublishedAt and TicketID. -/
structure TicketRefunded_v1 where
  header : MessageHeader
  ticketID : String
deriving DecidableEq

/-! ## The projector (db/ops_booking_read_model.go)

Each handler receives the current table state and the current wall-clock
time and returns either the new table state or an error message.  An error
aborts the enclosing SQL transaction, so no table state accompanies it:
the caller keeps the unchanged previous state and the message is
negative-acknowledged. -/

/-- OpsBookingReadModel.createReadModel: INSERT the marshalled aggregate
with ON CONFLICT (booking_id) DO NOTHING — an existing row is left
untouched and no error is reported. -/
def createReadModel (db : Db) (booking : OpsBooking) : Db :=
  if (lookupKey db booking.bookingID).isSome then db
  else insertKey db booking.bookingID (marshalReadModel booking)

/-- OpsBookingReadModel.updateReadModel: set LastUpdate to time.Now, then
INSERT the marshalled aggregate with
ON CONFLICT (booking_id) DO UPDATE SET payload = excluded.payload. -/
def updateReadModel (now : Nat) (db : Db) (rm : OpsBooking) : Db :=
  insertKey db rm.bookingID (marshalReadModel { rm with lastUpdate := now })

/-- OpsBookingReadModel.findByBookingID: point query on the booking_id
column, then unmarshal. -/
def findByBookingID (db : Db) (bookingID : String) : Option OpsBooking :=
  (lookupKey db bookingID).map unmarshalReadModelFromDB

/-- OpsBookingReadModel.findByTicketID: first row whose payload tickets
object contains the ticket id (jsonb key-exists operator; a null tickets
object contains no key), then unmarshal. -/
def findByTicketID (db : Db) (ticketID : String) : Option OpsBooking :=
  (db.find? fun kv => hasKey (kv.2.tickets.getD []) ticketID).map
    fun kv => unmarshalReadModelFromDB kv.2

/-- OpsBookingReadModel.updateByBookingID: inside one repeatable-read
transaction, load the aggregate by booking id — failing with a retryable
error when the row does not exist yet (events arrived out of order) —
apply the update function and write the result back. -/
def updateByBookingID (now : Nat) (db : Db) (bookingID : String)
    (updateFunc : OpsBooking → Except String OpsBooking) : Except String Db :=
  match findByBookingID db bookingID with
  | none => .error ("read model for booking " ++ bookingID ++ " not exist yet")
  | some rm =>
    match updateFunc rm with
    | .error e => .error e
    | .ok updatedRm => .ok (updateReadModel now db updatedRm)

/-- OpsBookingReadModel.updateByTicketID: inside one repeatable-read
transaction, load the aggregate owning the ticket — failing with a
retryable error when no row contains the ticket yet — read the ticket
entry (the Go zero value when absent), apply the update function to it,
store it back into the tickets map and write the aggregate back. -/
def updateByTicketID (now : Nat) (db : Db) (ticketID : String)
    (updateFunc : OpsTicket → Except String OpsTicket) : Except String Db :=
  match findByTicketID db ticketID with
  | none => .error ("read model for ticket " ++ ticketID ++ " not exist yet")
  | some rm =>
    let ticket := (lookupKey rm.tickets ticketID).getD default
    match updateFunc ticket with
    | .error e => .error e
    | .ok updatedTicket =>
      .ok (updateReadModel now db
        { rm with tickets := insertKey rm.tickets ticketID updatedTicket })

/-- OpsBookingReadModel.OnBookingMade: create the read model with an empty
tickets map, BookedAt from the event header and LastUpdate now. -/
def OnBookingMade (now : Nat) (db : Db) (e : BookingMade_v1) : Except String Db :=
  .ok (createReadModel db
    { bookingID := e.bookingID, tickets := [], lastUpdate := now
      bookedAt := e.header.publishedAt })

/-- OpsBookingReadModel.OnTicketBookingConfirmed: update the aggregate by
booking id, writing price amount, price currency, customer email and
confirmed-at into the ticket entry (creating it from the zero value when
absent). -/
def OnTicketBookingConfirmed (now : Nat) (db : Db)
    (e : TicketBookingConfirmed_v1) : Except String Db :=
  updateByBookingID now db e.bookingID fun rm =>
    let ticket := (lookupKey rm.tickets e.ticketID).getD default
    .ok { rm with
      tickets := insertKey rm.tickets e.ticketID
        { ticket with
          priceAmount := e.price.amount
          priceCurrency := e.price.currency
          customerEmail := e.customerEmail
          confirmedAt := e.header.publishedAt } }

/-- OpsBookingReadModel.OnTicketPrinted: update the ticket entry by ticket
id, writing printed-at and printed file name. -/
def OnTicketPrinted (now : Nat) (db : Db) (e : TicketPrinted_v1) :
    Except String Db :=
  updateByTicketID now db e.ticketID fun rm =>
    .ok { rm with printedAt := e.header.publishedAt
                  printedFileName := e.fileName }

/-- OpsBookingReadModel.OnTicketRefunded: update the ticket entry by ticket
id, writing refunded-at. -/
def OnTicketRefunded (now : Nat) (db : Db) (e : TicketRefunded_v1) :
    Except String Db :=
  updateByTicketID now db e.ticketID fun rm =>
    .ok { rm with refundedAt := e.header.publishedAt }

/-- OpsBookingReadModel.FindByID: load by booking id, mapping a missing row
to a booking-not-found error. -/
def FindByID (db : Db) (bookingID : String) : Except String OpsBooking :=
  match findByBookingID db bookingID with
  | none => .error ("booking not found: " ++ bookingID)
  | some b => .ok b

/-- OpsBookingReadModel.FindAll: select every payload — when a receipt
issue date is given, only payloads of bookings having a ticket whose
receipt_issued_at falls on that date — ordered by booked_at descending,
and unmarshal each.  The SQL DATE extraction over the environment type of
timestamps is passed in as the function dateOf. -/
def FindAll (db : Db) (dateOf : Nat → String) (receiptIssueDate : String) :
    List OpsBooking :=
  let rows :=
    if receiptIssueDate = "" then db
    else db.filter fun kv =>
      (kv.2.tickets.getD []).any fun tk => dateOf tk.2.receiptIssuedAt == receiptIssueDate
  ((rows.map Prod.snd).mergeSort fun r1 r2 => r2.bookedAt ≤ r1.bookedAt).map
    unmarshalReadModelFromDB

/-- The pipeline view of one delivery of a projector event: a handler
error aborts the SQL transaction (the table state is unchanged) and the
message is negative-acknowledged (second component false); success commits
the new state and acknowledges. -/
def attemptEvent (apply : Db → Except String Db) (db : Db) : Db × Bool :=
  match apply db with
  | .ok db2 => (db2, true)
  | .error _ => (db, false)

/-! ## Association list lemmas -/

theorem lookupKey_insertKey_self {β : Type} (l : List (String × β))
    (k : String) (v : β) : lookupKey (insertKey l k v) k = some v := by
  induction l with
  | nil => simp [insertKey, lookupKey]
  | cons kv rest ih =>
    obtain ⟨k1, w⟩ := kv
    by_cases h : k1 = k <;> simp [insertKey, lookupKey, h, ih]

theorem lookupKey_insertKey_ne {β : Type} (l : List (String × β))
    (k k2 : String) (v : β) (h : k2 ≠ k) :
    lookupKey (insertKey l k v) k2 = lookupKey l k2 := by
  induction l with
  | nil => simp [insertKey, lookupKey, Ne.symm h]
  | cons kv rest ih =>
    obtain ⟨k1, w⟩ := kv
    by_cases h1 : k1 = k
    · subst h1
      simp [insertKey, lookupKey, Ne.symm h]
    · by_cases h2 : k1 = k2 <;> simp [insertKey, lookupKey, h, h1, h2, ih]

/-! ## Claim theorems for the projector -/

/-- C2: applying OnBookingMade again for a booking whose row already
exists is a no-op — the table is returned unchanged (the conflicting
insert does nothing, so no duplicate row appears) and the handler reports
no error. -/
theorem onBookingMade_redelivery_idempotent (now : Nat) (db : Db)
    (e : BookingMade_v1) (row : StoredBooking)
    (h : lookupKey db e.bookingID = some row) :
    OnBookingMade now db e = .ok db := by
  simp [OnBookingMade, createReadModel, h]

/-- C2 witness: a concrete table already holding booking B1 is unchanged
by a redelivered BookingMade. -/
theorem onBookingMade_redelivery_idempotent_witness :
    lookupKey [("B1", Tickets.marshalReadModel
      { bookingID := "B1", bookedAt := 5, lastUpdate := 5, tickets := [] })] "B1"
      = some (Tickets.marshalReadModel
      { bookingID := "B1", bookedAt := 5, lastUpdate := 5, tickets := [] }) ∧
    OnBookingMade 9
      [("B1", Tickets.marshalReadModel
        { bookingID := "B1", bookedAt := 5, lastUpdate := 5, tickets := [] })]
      { header := { id := "m1", publishedAt := 5 }, bookingID := "B1" }
      = .ok [("B1", Tickets.marshalReadModel
        { bookingID := "B1", bookedAt := 5, lastUpdate := 5, tickets := [] })] :=
  ⟨by decide, onBookingMade_redelivery_idempotent 9
    [("B1", Tickets.marshalReadModel
      { bookingID := "B1", bookedAt := 5, lastUpdate := 5, tickets := [] })]
    { header := { id := "m1", publishedAt := 5 }, bookingID := "B1" }
    (Tickets.marshalReadModel
      { bookingID := "B1", bookedAt := 5, lastUpdate := 5, tickets := [] })
    (by decide)⟩

/-- C1: for a fresh booking B, delivering BookingMade(B) and then
TicketBookingConfirmed(T, B) acknowledges both; delivering the
confirmation first is negative-acknowledged with the table unchanged, it
is acknowledged on redelivery after BookingMade, and both delivery orders
converge to the identical final table state. -/
theorem out_of_order_convergence (db0 : Db) (eB : BookingMade_v1)
    (eC : TicketBookingConfirmed_v1) (t1 t2 : Nat)
    (hid : eC.bookingID = eB.bookingID)
    (h0 : lookupKey db0 eB.bookingID = none) :
    (attemptEvent (fun db => OnTicketBookingConfirmed t2 db eC) db0 = (db0, false)) ∧
    ((attemptEvent (fun db => OnBookingMade t1 db eB) db0).2 = true) ∧
    ((attemptEvent (fun db => OnTicketBookingConfirmed t2 db eC)
        (attemptEvent (fun db => OnBookingMade t1 db eB) db0).1).2 = true) ∧
    ((attemptEvent (fun db => OnTicketBookingConfirmed t2 db eC)
        (attemptEvent (fun db => OnBookingMade t1 db eB)
          (attemptEvent (fun db => OnTicketBookingConfirmed t2 db eC) db0).1).1).1
      = (attemptEvent (fun db => OnTicketBookingConfirmed t2 db eC)
          (attemptEvent (fun db => OnBookingMade t1 db eB) db0).1).1) := by
  have hC0 : OnTicketBookingConfirmed t2 db0 eC
      = .error ("read model for booking " ++ eC.bookingID ++ " not exist yet") := by
    simp [OnTicketBookingConfirmed, updateByBookingID, findByBookingID, hid, h0]
  have hMade : OnBookingMade t1 db0 eB
      = .ok (insertKey db0 eB.bookingID (marshalReadModel
          { bookingID := eB.bookingID, tickets := [], lastUpdate := t1
            bookedAt := eB.header.publishedAt })) := by
    simp [OnBookingMade, createReadModel, h0]
  have hConf : (OnTicketBookingConfirmed t2
      (insertKey db0 eB.bookingID (marshalReadModel
          { bookingID := eB.bookingID, tickets := [], lastUpdate := t1
            bookedAt := eB.header.publishedAt })) eC).isOk = true := by
    simp [OnTicketBookingConfirmed, updateByBookingID, findByBookingID, hid,
      lookupKey_insertKey_self, Except.isOk, Except.toBool]
  refine ⟨by simp [attemptEvent, hC0], by simp [attemptEvent, hMade], ?_, ?_⟩
  · simp only [attemptEvent, hMade]
    revert hConf
    cases OnTicketBookingConfirmed t2
      (insertKey db0 eB.bookingID (marshalReadModel
          { bookingID := eB.bookingID, tickets := [], lastUpdate := t1
            bookedAt := eB.header.publishedAt })) eC <;>
      simp [Except.isOk, Except.toBool]
  · simp [attemptEvent, hC0]

/-- C1 witness: the concrete out-of-order scenario for booking B1 and
ticket T1. -/
theorem out_of_order_convergence_witness :
    lookupKey ([] : Db) "B1" = none ∧
    (attemptEvent
      (fun db => OnTicketBookingConfirmed 8 db
        { header := { id := "m2", publishedAt := 7 }, bookingID := "B1"
          ticketID := "T1", price := { amount := "30", currency := "USD" }
          customerEmail := "a@b.c" }) ([] : Db) = (([] : Db), false)) ∧
    ((attemptEvent
      (fun db => OnBookingMade 6 db
        { header := { id := "m1", publishedAt := 5 }, bookingID := "B1" }) ([] : Db)).2
      = true) ∧
    ((attemptEvent
      (fun db => OnTicketBookingConfirmed 8 db
        { header := { id := "m2", publishedAt := 7 }, bookingID := "B1"
          ticketID := "T1", price := { amount := "30", currency := "USD" }
          customerEmail := "a@b.c" })
      (attemptEvent
        (fun db => OnBookingMade 6 db
          { header := { id := "m1", publishedAt := 5 }, bookingID := "B1" }) ([] : Db)).1).2
      = true) ∧
    ((attemptEvent
      (fun db => OnTicketBookingConfirmed 8 db
        { header := { id := "m2", publishedAt := 7 }, bookingID := "B1"
          ticketID := "T1", price := { amount := "30", currency := "USD" }
          customerEmail := "a@b.c" })
      (attemptEvent
        (fun db => OnBookingMade 6 db
          { header := { id := "m1", publishedAt := 5 }, bookingID := "B1" })
        (attemptEvent
          (fun db => OnTicketBookingConfirmed 8 db
            { header := { id := "m2", publishedAt := 7 }, bookingID := "B1"
              ticketID := "T1", price := { amount := "30", currency := "USD" }
              customerEmail := "a@b.c" }) ([] : Db)).1).1).1
      = (attemptEvent
          (fun db => OnTicketBookingConfirmed 8 db
            { header := { id := "m2", publishedAt := 7 }, bookingID := "B1"
              ticketID := "T1", price := { amount := "30", currency := "USD" }
              customerEmail := "a@b.c" })
          (attemptEvent
            (fun db => OnBookingMade 6 db
              { header := { id := "m1", publishedAt := 5 }, bookingID := "B1" }) ([] : Db)).1).1) := by
  refine ⟨by decide, ?_⟩
  have h := out_of_order_convergence ([] : Db)
    { header := { id := "m1", publishedAt := 5 }, bookingID := "B1" }
    { header := { id := "m2", publishedAt := 7 }, bookingID := "B1"
      ticketID := "T1", price := { amount := "30", currency := "USD" }
      customerEmail := "a@b.c" } 6 8 (by decide) (by decide)
  exact h

theorem lookupKey_updateReadModel_self (now : Nat) (db : Db)
    (rm : OpsBooking) :
    lookupKey (updateReadModel now db rm) rm.bookingID
      = some (marshalReadModel { rm with lastUpdate := now }) := by
  simp [updateReadModel, lookupKey_insertKey_self]

/-- C10: confirming a ticket whose owning booking row exists but whose
tickets map does not yet contain the ticket succeeds (no
missing-dependency error) and creates the ticket entry with price amount,
currency, customer email and confirmed-at taken from the event (all other
ticket fields still the zero value). -/
theorem onTicketBookingConfirmed_creates_missing_ticket (now : Nat)
    (db : Db) (e : TicketBookingConfirmed_v1) (row : StoredBooking)
    (h : lookupKey db e.bookingID = some row)
    (hwf : row.bookingID = e.bookingID)
    (hT : lookupKey (row.tickets.getD []) e.ticketID = none) :
    ∃ db2, OnTicketBookingConfirmed now db e = .ok db2 ∧
      ∃ row2, lookupKey db2 e.bookingID = some row2 ∧
        lookupKey (row2.tickets.getD []) e.ticketID = some
          { priceAmount := e.price.amount, priceCurrency := e.price.currency
            customerEmail := e.customerEmail
            confirmedAt := e.header.publishedAt
            printedAt := 0, printedFileName := "", receiptIssuedAt := 0
            receiptNumber := "", refundedAt := 0 } := by
  have hrun : OnTicketBookingConfirmed now db e
      = .ok (updateReadModel now db
          { unmarshalReadModelFromDB row with
            tickets := insertKey (row.tickets.getD []) e.ticketID
              { priceAmount := e.price.amount
                priceCurrency := e.price.currency
                customerEmail := e.customerEmail
                confirmedAt := e.header.publishedAt
                printedAt := 0, printedFileName := "", receiptIssuedAt := 0
                receiptNumber := "", refundedAt := 0 } }) := by
    simp [OnTicketBookingConfirmed, updateByBookingID, findByBookingID, h,
      unmarshalReadModelFromDB, hT, default]
  have hb : ({ unmarshalReadModelFromDB row with
      tickets := insertKey (row.tickets.getD []) e.ticketID
        { priceAmount := e.price.amount
          priceCurrency := e.price.currency
          customerEmail := e.customerEmail
          confirmedAt := e.header.publishedAt
          printedAt := 0, printedFileName := "", receiptIssuedAt := 0
          receiptNumber := "", refundedAt := 0 } } :
        OpsBooking).bookingID = e.bookingID := hwf
  refine ⟨_, hrun,
    marshalReadModel
      { unmarshalReadModelFromDB row with
        tickets := insertKey (row.tickets.getD []) e.ticketID
          { priceAmount := e.price.amount
            priceCurrency := e.price.currency
            customerEmail := e.customerEmail
            confirmedAt := e.header.publishedAt
            printedAt := 0, printedFileName := "", receiptIssuedAt := 0
            receiptNumber := "", refundedAt := 0 }
        lastUpdate := now }, ?_, ?_⟩
  · rw [← hb]
    exact lookupKey_updateReadModel_self now db _
  · exact lookupKey_insertKey_self _ _ _

/-- C10 witness: confirming ticket T1 against a stored booking B1 whose
tickets object is empty succeeds and creates the T1 entry. -/
theorem onTicketBookingConfirmed_creates_missing_ticket_witness :
    (lookupKey
        [("B1", { bookingID := "B1", bookedAt := 5, lastUpdate := 5
                  tickets := some [] : StoredBooking })] "B1"
      = some { bookingID := "B1", bookedAt := 5, lastUpdate := 5
               tickets := some [] : StoredBooking }) ∧
    (∃ db2, OnTicketBookingConfirmed 8
        [("B1", { bookingID := "B1", bookedAt := 5, lastUpdate := 5
                  tickets := some [] : StoredBooking })]
        { header := { id := "m2", publishedAt := 7 }, bookingID := "B1"
          ticketID := "T1", price := { amount := "30", currency := "USD" }
          customerEmail := "a@b.c" } = .ok db2 ∧
      ∃ row2, lookupKey db2 "B1" = some row2 ∧
        lookupKey (row2.tickets.getD []) "T1" = some
          { priceAmount := "30", priceCurrency := "USD"
            customerEmail := "a@b.c", confirmedAt := 7
            printedAt := 0, printedFileName := "", receiptIssuedAt := 0
            receiptNumber := "", refundedAt := 0 }) :=
  ⟨by decide, onTicketBookingConfirmed_creates_missing_ticket 8
    [("B1", { bookingID := "B1", bookedAt := 5, lastUpdate := 5
              tickets := some [] })]
    { header := { id := "m2", publishedAt := 7 }, bookingID := "B1"
      ticketID := "T1", price := { amount := "30", currency := "USD" }
      customerEmail := "a@b.c" }
    { bookingID := "B1", bookedAt := 5, lastUpdate := 5, tickets := some [] }
    (by decide) (by decide) (by decide)⟩

/-- C9: every aggregate the projector reads back from the table is the
unmarshalled image of a stored row, and unmarshalReadModelFromDB
substitutes the empty map for a nil (JSON null or absent) tickets map:
values returned by FindByID, values returned by FindAll, and the
aggregates located by findByTicketID (which updateByTicketID hands to its
update function) all carry the guarded tickets map, never a nil one. -/
theorem read_results_have_non_nil_tickets (db : Db) (dateOf : Nat → String)
    (receiptIssueDate : String) (bookingID ticketID : String)
    (b rm : OpsBooking) :
    (FindByID db bookingID = .ok b →
      ∃ row, lookupKey db bookingID = some row ∧
        b = unmarshalReadModelFromDB row ∧
        b.tickets = row.tickets.getD []) ∧
    (∀ b2 ∈ FindAll db dateOf receiptIssueDate,
      ∃ kv : String × StoredBooking, kv ∈ db ∧
        b2 = unmarshalReadModelFromDB kv.2 ∧
        b2.tickets = kv.2.tickets.getD []) ∧
    (findByTicketID db ticketID = some rm →
      ∃ kv : String × StoredBooking, kv ∈ db ∧
        rm = unmarshalReadModelFromDB kv.2 ∧
        rm.tickets = kv.2.tickets.getD []) ∧
    (∀ row : StoredBooking, row.tickets = none →
      (unmarshalReadModelFromDB row).tickets = []) := by
  refine ⟨?_, ?_, ?_, ?_⟩
  · intro hfind
    unfold FindByID findByBookingID at hfind
    cases hlook : lookupKey db bookingID with
    | none => rw [hlook] at hfind; simp at hfind
    | some row =>
      rw [hlook] at hfind
      simp at hfind
      exact ⟨row, rfl, hfind.symm, by rw [← hfind]; rfl⟩
  · intro b2 hmem
    unfold FindAll at hmem
    simp only [List.mem_map, List.mem_mergeSort] at hmem
    obtain ⟨r, hr, hb2⟩ := hmem
    obtain ⟨kv, hkv, hr2⟩ := hr
    refine ⟨kv, ?_, ?_, ?_⟩
    · by_cases hd : receiptIssueDate = ""
      · simpa [hd] using hkv
      · simp only [if_neg hd] at hkv
        exact (List.mem_filter.mp hkv).1
    · rw [← hb2, hr2]
    · rw [← hb2, hr2]; rfl
  · intro hfind
    unfold findByTicketID at hfind
    cases hf : db.find? fun kv => hasKey (kv.2.tickets.getD []) ticketID with
    | none => rw [hf] at hfind; simp at hfind
    | some kv =>
      rw [hf] at hfind
      simp at hfind
      exact ⟨kv, List.mem_of_find?_eq_some hf, hfind.symm, by rw [← hfind]; rfl⟩
  · intro row hrow
    simp [unmarshalReadModelFromDB, hrow]

/-- The concrete table for the C9 witness: booking B1 stored with a null
tickets object, booking B2 stored with a tickets object holding T1. -/
def c9Db : Db :=
  [("B1", { bookingID := "B1", bookedAt := 9, lastUpdate := 9
            tickets := none }),
   ("B2", { bookingID := "B2", bookedAt := 5, lastUpdate := 6
            tickets := some [("T1",
              { priceAmount := "30", priceCurrency := "USD"
                customerEmail := "a@b.c", confirmedAt := 7, printedAt := 0
                printedFileName := "", receiptIssuedAt := 0
                receiptNumber := "", refundedAt := 0 })] })]

/-- The aggregate read back for B1: its nil tickets map became the empty
map. -/
def c9B1 : OpsBooking :=
  { bookingID := "B1", bookedAt := 9, lastUpdate := 9, tickets := [] }

/-- The aggregate read back for B2 via its ticket T1. -/
def c9B2 : OpsBooking :=
  { bookingID := "B2", bookedAt := 5, lastUpdate := 6
    tickets := [("T1",
      { priceAmount := "30", priceCurrency := "USD"
        customerEmail := "a@b.c", confirmedAt := 7, printedAt := 0
        printedFileName := "", receiptIssuedAt := 0
        receiptNumber := "", refundedAt := 0 })] }

/-- C9 witness: over the concrete table, FindByID really returns the B1
aggregate, that aggregate is among the FindAll results, findByTicketID
really locates the B2 aggregate for T1, and each is the nil-guarded image
of its stored row; the null tickets object of B1 became the empty map. -/
theorem read_results_have_non_nil_tickets_witness :
    (FindByID c9Db "B1" = .ok c9B1) ∧
    (∃ row, lookupKey c9Db "B1" = some row ∧
      c9B1 = unmarshalReadModelFromDB row ∧
      c9B1.tickets = row.tickets.getD []) ∧
    c9B1 ∈ FindAll c9Db (fun _ => "") "" ∧
    (∃ kv : String × StoredBooking, kv ∈ c9Db ∧
      c9B1 = unmarshalReadModelFromDB kv.2 ∧
      c9B1.tickets = kv.2.tickets.getD []) ∧
    (findByTicketID c9Db "T1" = some c9B2) ∧
    (∃ kv : String × StoredBooking, kv ∈ c9Db ∧
      c9B2 = unmarshalReadModelFromDB kv.2 ∧
      c9B2.tickets = kv.2.tickets.getD []) ∧
    (unmarshalReadModelFromDB
      { bookingID := "B1", bookedAt := 9, lastUpdate := 9
        tickets := none }).tickets = [] := by
  have hFind : FindByID c9Db "B1" = .ok c9B1 := rfl
  have hTicket : findByTicketID c9Db "T1" = some c9B2 := rfl
  have hm : c9B1 ∈ FindAll c9Db (fun _ => "") "" := by
    simp only [FindAll, if_pos]
    rw [List.mem_map]
    refine ⟨{ bookingID := "B1", bookedAt := 9, lastUpdate := 9
              tickets := none }, ?_, rfl⟩
    rw [List.mem_mergeSort]
    decide
  exact ⟨hFind,
    (read_results_have_non_nil_tickets c9Db (fun _ => "") "" "B1" "T1"
      c9B1 c9B2).1 hFind,
    hm,
    (read_results_have_non_nil_tickets c9Db (fun _ => "") "" "B1" "T1"
      c9B1 c9B2).2.1 c9B1 hm,
    hTicket,
    (read_results_have_non_nil_tickets c9Db (fun _ => "") "" "B1" "T1"
      c9B1 c9B2).2.2.1 hTicket,
    (read_results_have_non_nil_tickets c9Db (fun _ => "") "" "B1" "T1"
      c9B1 c9B2).2.2.2 _ rfl⟩

/-! ## The dispatch pipeline (message/middleware.go)

A watermill message and the outcome of one handler invocation.  The
outcome carries the list of (topic, message) publications the handler
performed (for the splitter this is the one republication; a handler that
only causes side effects publishes nothing).  A Go panic is a distinct
outcome so that the Recoverer middleware is observable. -/

/-- A broker message: uuid, raw payload and string metadata.  The payload
is never interpreted by the pipeline itself. -/
structure Msg where
  uuid : String
  payload : String
  metadata : List (String × String)
deriving DecidableEq

/-- A Go error value as the handlers of this service produce it.  The
permanent flag models the PermanentError marker interface described in the
project documentation; nothing in message/middleware.go ever inspects such
a flag. -/
structure GoError where
  message : String
  permanent : Bool
deriving DecidableEq

/-- Outcome of one invocation of a handler on a message. -/
inductive HandlerOutcome where
  | ok (published : List (String × Msg))
  | fail (e : GoError)
  | panicked (reason : String)
deriving DecidableEq

/-- middleware.Recoverer: a panic inside the nested handler is converted
into an ordinary delivery failure; other outcomes pass through. -/
def recovererMiddleware (h : Msg → HandlerOutcome) : Msg → HandlerOutcome :=
  fun msg =>
    match h msg with
    | .panicked reason => .fail { message := "panic recovered: " ++ reason, permanent := false }
    | o => o

/-- tracingMiddleware (message/middleware.go): starts a span from the
message metadata and records errors on it; the handler outcome itself
passes through unchanged. -/
def tracingMiddleware (h : Msg → HandlerOutcome) : Msg → HandlerOutcome :=
  fun msg => h msg

/-- correlationIdMiddleware (message/middleware.go): injects the
correlation id from the metadata (or a fresh one) into the logging
context; the handler outcome itself passes through unchanged. -/
def correlationIdMiddleware (h : Msg → HandlerOutcome) : Msg → HandlerOutcome :=
  fun msg => h msg

/-- logMiddleware (message/middleware.go): logs the message before and
after handling; the handler outcome itself passes through unchanged. -/
def logMiddleware (h : Msg → HandlerOutcome) : Msg → HandlerOutcome :=
  fun msg => h msg

/-- metricsMiddleware (message/middleware.go): increments the processed
and failed counters and observes the duration; the handler outcome itself
passes through unchanged. -/
def metricsMiddleware (h : Msg → HandlerOutcome) : Msg → HandlerOutcome :=
  fun msg => h msg

/-- Modelled from the spec: the retry middleware of the messaging library,
configured in useMiddlewares.  It invokes the nested handler, and while
the handler fails and retries remain it backs off and invokes it again;
when the retries are exhausted the last error is returned to the router
(the message is then negative-acknowledged).  A panic is not retried: it
unwinds to the Recoverer outside.  Returns the number of attempts made
together with the final outcome. -/
def retryRun (h : Msg → HandlerOutcome) (msg : Msg) :
    Nat → Nat × HandlerOutcome
  | 0 => (1, h msg)
  | retriesLeft + 1 =>
    match h msg with
    | .ok r => (1, .ok r)
    | .panicked reason => (1, .panicked reason)
    | .fail _ =>
      let (attempts, outcome) := retryRun h msg retriesLeft
      (attempts + 1, outcome)

/-- The observable result of dispatching one message: how many times the
handler was invoked, the final outcome, and whether the router
acknowledged the message (it does so exactly when no error is returned;
otherwise the message is negative-acknowledged and the broker redelivers). -/
structure DispatchResult where
  attempts : Nat
  outcome : HandlerOutcome
  acked : Bool
deriving DecidableEq

/-- The middleware chain of useMiddlewares (message/middleware.go), in
registration order: Recoverer outermost, then Retry, then the tracing,
correlation id, logging and metrics pass-through middlewares around the
handler, and finally the ack/nack conversion of the router (modelled from
the spec: acknowledge on success, negative-acknowledge on error).
MaxRetries is 3 in the source configuration. -/
def dispatchMessage (maxRetries : Nat) (h : Msg → HandlerOutcome)
    (msg : Msg) : DispatchResult :=
  let inner := tracingMiddleware (correlationIdMiddleware
    (logMiddleware (metricsMiddleware h)))
  let (attempts, afterRetry) := retryRun inner msg maxRetries
  let final := recovererMiddleware (fun _ => afterRetry) msg
  { attempts := attempts
    outcome := final
    acked := match final with | .ok _ => true | _ => false }

/-- The MaxRetries value configured in useMiddlewares. -/
def configuredMaxRetries : Nat := 3

/-! ## The events splitter (message/router.go NewRouter) -/

/-- The events_splitter consumer handler registered in NewRouter: extract
the event name from the message (the marshaler of the event processor
configuration reads it from the metadata, never from the payload — it is
passed in here as a function of the metadata alone); an empty name is an
error; otherwise republish the message itself, unchanged, to the per-type
topic "events." plus the name.  The publish call itself is broker I/O and
is modelled as succeeding. -/
def eventsSplitterHandler (nameFromMessage : List (String × String) → String)
    (msg : Msg) : HandlerOutcome :=
  let eventName := nameFromMessage msg.metadata
  if eventName = "" then
    .fail { message := "cannot get event name from message", permanent := false }
  else
    .ok [("events." ++ eventName, msg)]

/-- Helper: dispatching a message whose handler fails on every attempt
makes the initial attempt plus maxRetries retries and then
negative-acknowledges with that error. -/
theorem dispatch_of_persistent_failure (maxRetries : Nat)
    (h : Msg → HandlerOutcome) (msg : Msg) (e : GoError)
    (hfail : h msg = .fail e) :
    dispatchMessage maxRetries h msg
      = { attempts := maxRetries + 1, outcome := .fail e, acked := false } := by
  have hrun : ∀ n, retryRun (tracingMiddleware (correlationIdMiddleware
      (logMiddleware (metricsMiddleware h)))) msg n = (n + 1, .fail e) := by
    intro n
    induction n with
    | zero =>
      simp [retryRun, tracingMiddleware, correlationIdMiddleware,
        logMiddleware, metricsMiddleware, hfail]
    | succ k ih =>
      simp [retryRun, tracingMiddleware, correlationIdMiddleware,
        logMiddleware, metricsMiddleware, hfail, ih]
  simp [dispatchMessage, hrun, recovererMiddleware]

/-- Modelled from the spec: the marshaler of the event processor
configuration extracts the event-type name from the message metadata
(never from the payload). -/
def metadataEventName (md : List (String × String)) : String :=
  (lookupKey md "name").getD ""

/-- A concrete message whose metadata does not yield an event-type name. -/
def msgWithoutName : Msg :=
  { uuid := "u1", payload := "\x7b\x7d", metadata := [] }

/-- A concrete message carrying the event-type name BookingMade_v1 in its
metadata. -/
def msgBookingMade : Msg :=
  { uuid := "u2", payload := "irrelevant payload bytes"
    metadata := [("name", "BookingMade_v1")] }

/-- A handler that always fails with an error marked permanent (the
missing-required-field class of domain errors). -/
def permanentFailingHandler : Msg → HandlerOutcome :=
  fun _ => .fail { message := "required field absent", permanent := true }

/-- A handler that always fails with a generic, non-permanent error. -/
def genericFailingHandler : Msg → HandlerOutcome :=
  fun _ => .fail { message := "database unavailable", permanent := false }

/-- C4 counterexample: a handler returning a permanent-classified failure
is NOT acknowledged by the dispatch pipeline — with the configured
MaxRetries of 3 the delivery ends negative-acknowledged after 4 attempts,
because useMiddlewares installs no middleware that inspects a permanent
marker (and none that raises an alert). -/
theorem permanent_error_not_acked_counterexample :
    dispatchMessage configuredMaxRetries permanentFailingHandler msgBookingMade
      = { attempts := 4
          outcome := .fail { message := "required field absent", permanent := true }
          acked := false } := by
  exact dispatch_of_persistent_failure 3 permanentFailingHandler msgBookingMade
    { message := "required field absent", permanent := true } rfl

/-- C4 amended: the dispatch pipeline applies no permanent-error
classification: a message whose handler persistently fails with an error
marked permanent is treated like any other failure — the initial attempt
plus the configured number of retries, then negative-acknowledgement with
that same error; it is never acknowledged-without-processing and no alert
is emitted (useMiddlewares installs no alerting middleware). -/
theorem permanent_error_retried_then_nacked (maxRetries : Nat)
    (h : Msg → HandlerOutcome) (msg : Msg) (e : GoError)
    (_hperm : e.permanent = true) (hfail : h msg = .fail e) :
    dispatchMessage maxRetries h msg
      = { attempts := maxRetries + 1, outcome := .fail e, acked := false } :=
  dispatch_of_persistent_failure maxRetries h msg e hfail

/-- C4 witness: the permanent-failure handler on a concrete message. -/
theorem permanent_error_retried_then_nacked_witness :
    (({ message := "required field absent", permanent := true } : GoError).permanent
        = true) ∧
    permanentFailingHandler msgBookingMade
      = .fail { message := "required field absent", permanent := true } ∧
    dispatchMessage 3 permanentFailingHandler msgBookingMade
      = { attempts := 4
          outcome := .fail { message := "required field absent", permanent := true }
          acked := false } :=
  ⟨rfl, rfl, permanent_error_retried_then_nacked 3 permanentFailingHandler
    msgBookingMade { message := "required field absent", permanent := true }
    rfl rfl⟩

/-- C5 counterexample: a handler persistently returning a generic error is
retried up to the configured maximum (3 retries, 4 attempts) but the
message is then negative-acknowledged, not acknowledged. -/
theorem generic_error_not_acked_counterexample :
    dispatchMessage configuredMaxRetries genericFailingHandler msgBookingMade
      = { attempts := 4
          outcome := .fail { message := "database unavailable", permanent := false }
          acked := false } := by
  exact dispatch_of_persistent_failure 3 genericFailingHandler msgBookingMade
    { message := "database unavailable", permanent := false } rfl

/-- C5 amended: a message whose handler persistently returns a generic
error is retried up to the configured maximum number of retries and then
negative-acknowledged — the exhausted error is returned to the broker,
which redelivers; the pipeline never acknowledges it. -/
theorem generic_error_retried_then_nacked (maxRetries : Nat)
    (h : Msg → HandlerOutcome) (msg : Msg) (e : GoError)
    (_hgen : e.permanent = false) (hfail : h msg = .fail e) :
    dispatchMessage maxRetries h msg
      = { attempts := maxRetries + 1, outcome := .fail e, acked := false } :=
  dispatch_of_persistent_failure maxRetries h msg e hfail

/-- C5 witness: the generic-failure handler on a concrete message with the
configured MaxRetries of 3. -/
theorem generic_error_retried_then_nacked_witness :
    (({ message := "database unavailable", permanent := false } : GoError).permanent
        = false) ∧
    genericFailingHandler msgBookingMade
      = .fail { message := "database unavailable", permanent := false } ∧
    dispatchMessage 3 genericFailingHandler msgBookingMade
      = { attempts := 4
          outcome := .fail { message := "database unavailable", permanent := false }
          acked := false } :=
  ⟨rfl, rfl, generic_error_retried_then_nacked 3 genericFailingHandler
    msgBookingMade { message := "database unavailable", permanent := false }
    rfl rfl⟩

/-- C6 counterexample: on a message whose metadata yields no event-type
name the events splitter handler returns an error (it does not return nil)
and the pipeline negative-acknowledges the message instead of
acknowledging it; no alert is raised anywhere in the pipeline. -/
theorem splitter_missing_name_not_acked_counterexample :
    eventsSplitterHandler metadataEventName msgWithoutName
      = .fail { message := "cannot get event name from message", permanent := false } ∧
    (dispatchMessage configuredMaxRetries
      (eventsSplitterHandler metadataEventName) msgWithoutName).acked = false := by
  constructor
  · rfl
  · decide

/-- C6 amended: when the events splitter receives a message whose metadata
does not yield an event-type name, its handler returns an ordinary
(non-permanent) error; the dispatch pipeline therefore retries the message
up to the configured maximum and negative-acknowledges it — it is not
acknowledged without processing, and no alert is raised. -/
theorem splitter_missing_name_nacked_and_retried
    (nameFromMessage : List (String × String) → String) (msg : Msg)
    (hname : nameFromMessage msg.metadata = "") :
    eventsSplitterHandler nameFromMessage msg
      = .fail { message := "cannot get event name from message", permanent := false } ∧
    dispatchMessage configuredMaxRetries (eventsSplitterHandler nameFromMessage) msg
      = { attempts := 4
          outcome := .fail { message := "cannot get event name from message"
                             permanent := false }
          acked := false } := by
  have hh : eventsSplitterHandler nameFromMessage msg
      = .fail { message := "cannot get event name from message", permanent := false } := by
    simp [eventsSplitterHandler, hname]
  exact ⟨hh, dispatch_of_persistent_failure 3 _ msg _ hh⟩

/-- C6 witness: the concrete message with empty metadata. -/
theorem splitter_missing_name_nacked_and_retried_witness :
    metadataEventName msgWithoutName.metadata = "" ∧
    (eventsSplitterHandler metadataEventName msgWithoutName
      = .fail { message := "cannot get event name from message", permanent := false } ∧
    dispatchMessage configuredMaxRetries
        (eventsSplitterHandler metadataEventName) msgWithoutName
      = { attempts := 4
          outcome := .fail { message := "cannot get event name from message"
                             permanent := false }
          acked := false }) :=
  ⟨rfl, splitter_missing_name_nacked_and_retried metadataEventName
    msgWithoutName rfl⟩

/-- C7: on any message whose metadata yields the non-empty event-type name
E, the events splitter republishes exactly that message — payload and
metadata unchanged — to the topic "events." plus E; and because the
handler consults only the metadata, every message with the same metadata
is routed identically, whatever its payload. -/
theorem splitter_republishes_unchanged_by_metadata
    (nameFromMessage : List (String × String) → String) (msg : Msg)
    (eventName : String) (hname : nameFromMessage msg.metadata = eventName)
    (hne : eventName ≠ "") :
    eventsSplitterHandler nameFromMessage msg
      = .ok [("events." ++ eventName, msg)] ∧
    (∀ msg2 : Msg, msg2.metadata = msg.metadata →
      eventsSplitterHandler nameFromMessage msg2
        = .ok [("events." ++ eventName, msg2)]) := by
  constructor
  · simp [eventsSplitterHandler, hname, hne]
  · intro msg2 hmd
    simp [eventsSplitterHandler, hmd, hname, hne]

/-- C7 witness: a concrete BookingMade_v1 message is republished unchanged
to events.BookingMade_v1, and so is a second message with the same
metadata but a different payload. -/
theorem splitter_republishes_unchanged_by_metadata_witness :
    metadataEventName msgBookingMade.metadata = "BookingMade_v1" ∧
    ("BookingMade_v1" : String) ≠ "" ∧
    (eventsSplitterHandler metadataEventName msgBookingMade
      = .ok [("events.BookingMade_v1", msgBookingMade)] ∧
    (∀ msg2 : Msg, msg2.metadata = msgBookingMade.metadata →
      eventsSplitterHandler metadataEventName msg2
        = .ok [("events.BookingMade_v1", msg2)])) :=
  ⟨rfl, by decide,
    splitter_republishes_unchanged_by_metadata metadataEventName
      msgBookingMade "BookingMade_v1" rfl (by decide)⟩

end Tickets

namespace Tickets

/-! ## Startup ordering of Service.Run (service/service.go)

Service.Run starts the message router goroutine and a second goroutine
that first blocks receiving on the Running channel of the router and only
then starts the echo HTTP server.  The Running channel is closed by the
router once it is ready; in Go, a receive from that channel completes only
after the close.  Traces of the two goroutines are modelled as
interleavings of their sequential programs constrained by that channel
causality. -/

/-- The observable startup events of Service.Run. -/
inductive RunEvent where
  | routerStarted
  | routerReady
  | recvRunning
  | serverStarted
deriving DecidableEq

/-- The message router goroutine of Service.Run: it starts consuming and,
once ready, closes the Running channel. -/
def msgsRouterThread : List RunEvent :=
  [RunEvent.routerStarted, RunEvent.routerReady]

/-- The HTTP goroutine of Service.Run: it blocks receiving on the Running
channel of the router and then starts the echo server on port 8080. -/
def httpServerThread : List RunEvent :=
  [RunEvent.recvRunning, RunEvent.serverStarted]

/-- An interleaving of two sequential threads into one trace: each step of
the trace is the next step of one of the threads. -/
inductive Interleaving : List RunEvent → List RunEvent → List RunEvent → Prop
  | nil : Interleaving [] [] []
  | left (a : RunEvent) {l r t : List RunEvent} :
      Interleaving l r t → Interleaving (a :: l) r (a :: t)
  | right (b : RunEvent) {l r t : List RunEvent} :
      Interleaving l r t → Interleaving l (b :: r) (b :: t)

/-- Go channel semantics for the Running channel: a receive on the channel
completes only after the router has closed it, so every recvRunning in a
trace is preceded by routerReady. -/
def ChannelCausality (t : List RunEvent) : Prop :=
  ∀ i : Fin t.length, t.get i = RunEvent.recvRunning →
    ∃ j : Fin t.length, j.val < i.val ∧ t.get j = RunEvent.routerReady

instance (t : List RunEvent) : Decidable (ChannelCausality t) := by
  unfold ChannelCausality; infer_instance

/-- The traces Service.Run can produce: an interleaving of the router
goroutine and the HTTP goroutine, subject to the channel causality. -/
def ValidRunTrace (t : List RunEvent) : Prop :=
  Interleaving msgsRouterThread httpServerThread t ∧ ChannelCausality t

/-- C8: in every trace of Service.Run, the HTTP server starts only after
the message router has signalled readiness — every serverStarted event is
preceded by a routerReady event, because the goroutine that starts the
echo server first blocks on the Running channel of the router. -/
theorem server_starts_after_router_ready (t : List RunEvent)
    (h : ValidRunTrace t) :
    ∀ i : Fin t.length, t.get i = RunEvent.serverStarted →
      ∃ j : Fin t.length, j.val < i.val ∧ t.get j = RunEvent.routerReady := by
  obtain ⟨hint, hchan⟩ := h
  unfold msgsRouterThread httpServerThread at hint
  cases hint with
  | left _ h1 =>
    cases h1 with
    | left _ h2 =>
      cases h2 with
      | right _ h3 =>
        cases h3 with
        | right _ h4 => cases h4 with | nil => revert hchan; decide
    | right _ h2 =>
      cases h2 with
      | left _ h3 =>
        cases h3 with
        | right _ h4 => cases h4 with | nil => revert hchan; decide
      | right _ h3 =>
        cases h3 with
        | left _ h4 => cases h4 with | nil => revert hchan; decide
  | right _ h1 =>
    cases h1 with
    | left _ h2 =>
      cases h2 with
      | left _ h3 =>
        cases h3 with
        | right _ h4 => cases h4 with | nil => revert hchan; decide
      | right _ h3 =>
        cases h3 with
        | left _ h4 => cases h4 with | nil => revert hchan; decide
    | right _ h2 =>
      cases h2 with
      | left _ h3 =>
        cases h3 with
        | left _ h4 => cases h4 with | nil => revert hchan; decide

/-- C8 witness: the trace in which the router becomes ready and then the
HTTP goroutine is unblocked and starts the server is a valid trace, and in
it the server start is preceded by the readiness signal. -/
theorem server_starts_after_router_ready_witness :
    ValidRunTrace [RunEvent.routerStarted, RunEvent.routerReady,
      RunEvent.recvRunning, RunEvent.serverStarted] ∧
    (∀ i : Fin ([RunEvent.routerStarted, RunEvent.routerReady,
        RunEvent.recvRunning, RunEvent.serverStarted] : List RunEvent).length,
      ([RunEvent.routerStarted, RunEvent.routerReady,
        RunEvent.recvRunning, RunEvent.serverStarted] : List RunEvent).get i
          = RunEvent.serverStarted →
      ∃ j : Fin ([RunEvent.routerStarted, RunEvent.routerReady,
          RunEvent.recvRunning, RunEvent.serverStarted] : List RunEvent).length,
        j.val < i.val ∧
        ([RunEvent.routerStarted, RunEvent.routerReady,
          RunEvent.recvRunning, RunEvent.serverStarted] : List RunEvent).get j
            = RunEvent.routerReady) :=
  ⟨⟨Interleaving.left RunEvent.routerStarted
      (Interleaving.left RunEvent.routerReady
        (Interleaving.right RunEvent.recvRunning
          (Interleaving.right RunEvent.serverStarted Interleaving.nil))),
    by decide⟩,
   server_starts_after_router_ready _
    ⟨Interleaving.left RunEvent.routerStarted
      (Interleaving.left RunEvent.routerReady
        (Interleaving.right RunEvent.recvRunning
          (Interleaving.right RunEvent.serverStarted Interleaving.nil))),
    by decide⟩⟩

end Tickets

namespace Tickets

/-! ## Field isolation of OnTicketPrinted and OnTicketRefunded -/

theorem find?_insertKey_of_found {β : Type} (p : String × β → Bool)
    (l : List (String × β)) (k : String) (row row2 : β)
    (hnd : (keysOf l).Nodup)
    (hfind : l.find? p = some (k, row)) (hp2 : p (k, row2) = true) :
    (insertKey l k row2).find? p = some (k, row2) := by
  induction l with
  | nil => simp [List.find?] at hfind
  | cons kv rest ih =>
    obtain ⟨k1, w⟩ := kv
    simp only [keysOf, List.map_cons, List.nodup_cons] at hnd
    cases hq : p (k1, w) with
    | true =>
      rw [List.find?_cons_of_pos _ hq] at hfind
      have hk1 : k1 = k := by
        have := congrArg (fun o => Option.map Prod.fst o) hfind
        simpa using this
      subst hk1
      have hw : w = row := by
        have := congrArg (fun o => Option.map Prod.snd o) hfind
        simpa using this
      subst hw
      simp only [insertKey, if_pos rfl]
      exact List.find?_cons_of_pos _ hp2
    | false =>
      rw [List.find?_cons_of_neg _ (by simp [hq])] at hfind
      have hkmem : k ∈ keysOf rest := by
        have hm := List.mem_of_find?_eq_some hfind
        exact List.mem_map_of_mem Prod.fst hm
      have hne : k1 ≠ k := fun he => hnd.1 (he ▸ hkmem)
      simp only [insertKey, if_neg hne]
      rw [List.find?_cons_of_neg _ (by simp [hq])]
      exact ih hnd.2 hfind

/-- Characterization of a successful updateByTicketID: when the first row
whose tickets object contains the ticket is (K, row) with the booking_id
column agreeing with the payload, and the update function succeeds on the
stored ticket entry, the result upserts the updated aggregate at K. -/
theorem updateByTicketID_found (now : Nat) (db : Db) (ticketID : String)
    (f : OpsTicket → Except String OpsTicket) (K : String)
    (row : StoredBooking) (tk2 : OpsTicket)
    (hf : List.find? (fun kv => hasKey (kv.2.tickets.getD []) ticketID) db
      = some (K, row))
    (hK : row.bookingID = K)
    (hupd : f ((lookupKey (row.tickets.getD []) ticketID).getD default) = .ok tk2) :
    updateByTicketID now db ticketID f
      = .ok (insertKey db K (marshalReadModel
          { bookingID := K, bookedAt := row.bookedAt, lastUpdate := now
            tickets := insertKey (row.tickets.getD []) ticketID tk2 })) := by
  simp only [updateByTicketID, findByTicketID, hf, Option.map,
    unmarshalReadModelFromDB, hupd, updateReadModel, marshalReadModel, hK]

end Tickets

namespace Tickets

/-- C3: for a ticket already present in a stored booking, applying
OnTicketPrinted and OnTicketRefunded in either order succeeds, and in both
final table states the ticket entry carries the printed facts (printed_at,
printed_file_name) and the refunded fact (refunded_at) together — neither
handler clears the fields written by the other.  The table is assumed
well-formed (key column matches payload, keys unique), as every reachable
state is. -/
theorem printed_refunded_field_isolation (db : Db) (eP : TicketPrinted_v1)
    (eR : TicketRefunded_v1) (a b : Nat)
    (hid : eR.ticketID = eP.ticketID)
    (hnd : (keysOf db).Nodup) (hwf : DbWellFormed db)
    (hfound : (findByTicketID db eP.ticketID).isSome = true) :
    ∃ db1 db2 db1r db2r,
      OnTicketPrinted a db eP = .ok db1 ∧
      OnTicketRefunded b db1 eR = .ok db2 ∧
      OnTicketRefunded b db eR = .ok db1r ∧
      OnTicketPrinted a db1r eP = .ok db2r ∧
      (∀ d ∈ [db2, db2r], ∃ K row, lookupKey d K = some row ∧
        ∃ tk, lookupKey (row.tickets.getD []) eP.ticketID = some tk ∧
          tk.printedAt = eP.header.publishedAt ∧
          tk.printedFileName = eP.fileName ∧
          tk.refundedAt = eR.header.publishedAt) := by
  have hex : ∃ kv, List.find?
      (fun kv => hasKey (kv.2.tickets.getD []) eP.ticketID) db = some kv := by
    unfold findByTicketID at hfound
    cases h : List.find? (fun kv => hasKey (kv.2.tickets.getD []) eP.ticketID) db with
    | none => rw [h] at hfound; simp at hfound
    | some kv => exact ⟨kv, rfl⟩
  obtain ⟨⟨K, row0⟩, hf0⟩ := hex
  have hK : row0.bookingID = K := hwf _ (List.mem_of_find?_eq_some hf0)
  have hp0 := List.find?_some hf0
  have hp0s : (lookupKey (row0.tickets.getD []) eP.ticketID).isSome = true := hp0
  obtain ⟨tk0, htk0⟩ := Option.isSome_iff_exists.mp hp0s
  -- order Printed then Refunded
  have h1 : OnTicketPrinted a db eP
      = .ok (insertKey db K (marshalReadModel
          { bookingID := K, bookedAt := row0.bookedAt, lastUpdate := a
            tickets := insertKey (row0.tickets.getD []) eP.ticketID
              { tk0 with printedAt := eP.header.publishedAt
                         printedFileName := eP.fileName } })) := by
    unfold OnTicketPrinted
    exact updateByTicketID_found a db eP.ticketID _ K row0 _ hf0 hK
      (by simp [htk0])
  have hf1 : List.find? (fun kv => hasKey (kv.2.tickets.getD []) eP.ticketID)
      (insertKey db K (marshalReadModel
        { bookingID := K, bookedAt := row0.bookedAt, lastUpdate := a
          tickets := insertKey (row0.tickets.getD []) eP.ticketID
            { tk0 with printedAt := eP.header.publishedAt
                       printedFileName := eP.fileName } }))
      = some (K, marshalReadModel
        { bookingID := K, bookedAt := row0.bookedAt, lastUpdate := a
          tickets := insertKey (row0.tickets.getD []) eP.ticketID
            { tk0 with printedAt := eP.header.publishedAt
                       printedFileName := eP.fileName } }) :=
    find?_insertKey_of_found _ db K row0 _ hnd hf0
      (by simp [marshalReadModel, hasKey, lookupKey_insertKey_self])
  have h2 : OnTicketRefunded b (insertKey db K (marshalReadModel
      { bookingID := K, bookedAt := row0.bookedAt, lastUpdate := a
        tickets := insertKey (row0.tickets.getD []) eP.ticketID
          { tk0 with printedAt := eP.header.publishedAt
                     printedFileName := eP.fileName } })) eR
      = .ok (insertKey (insertKey db K (marshalReadModel
          { bookingID := K, bookedAt := row0.bookedAt, lastUpdate := a
            tickets := insertKey (row0.tickets.getD []) eP.ticketID
              { tk0 with printedAt := eP.header.publishedAt
                         printedFileName := eP.fileName } })) K
          (marshalReadModel
            { bookingID := K, bookedAt := row0.bookedAt, lastUpdate := b
              tickets := insertKey
                (insertKey (row0.tickets.getD []) eP.ticketID
                  { tk0 with printedAt := eP.header.publishedAt
                             printedFileName := eP.fileName })
                eP.ticketID
                { tk0 with printedAt := eP.header.publishedAt
                           printedFileName := eP.fileName
                           refundedAt := eR.header.publishedAt } })) := by
    unfold OnTicketRefunded
    rw [hid]
    exact updateByTicketID_found b _ eP.ticketID _ K _ _ hf1 rfl
      (by simp [marshalReadModel, lookupKey_insertKey_self])
  -- order Refunded then Printed
  have h1r : OnTicketRefunded b db eR
      = .ok (insertKey db K (marshalReadModel
          { bookingID := K, bookedAt := row0.bookedAt, lastUpdate := b
            tickets := insertKey (row0.tickets.getD []) eP.ticketID
              { tk0 with refundedAt := eR.header.publishedAt } })) := by
    unfold OnTicketRefunded
    rw [hid]
    exact updateByTicketID_found b db eP.ticketID _ K row0 _ hf0 hK
      (by simp [htk0])
  have hf1r : List.find? (fun kv => hasKey (kv.2.tickets.getD []) eP.ticketID)
      (insertKey db K (marshalReadModel
        { bookingID := K, bookedAt := row0.bookedAt, lastUpdate := b
          tickets := insertKey (row0.tickets.getD []) eP.ticketID
            { tk0 with refundedAt := eR.header.publishedAt } }))
      = some (K, marshalReadModel
        { bookingID := K, bookedAt := row0.bookedAt, lastUpdate := b
          tickets := insertKey (row0.tickets.getD []) eP.ticketID
            { tk0 with refundedAt := eR.header.publishedAt } }) :=
    find?_insertKey_of_found _ db K row0 _ hnd hf0
      (by simp [marshalReadModel, hasKey, lookupKey_insertKey_self])
  have h2r : OnTicketPrinted a (insertKey db K (marshalReadModel
      { bookingID := K, bookedAt := row0.bookedAt, lastUpdate := b
        tickets := insertKey (row0.tickets.getD []) eP.ticketID
          { tk0 with refundedAt := eR.header.publishedAt } })) eP
      = .ok (insertKey (insertKey db K (marshalReadModel
          { bookingID := K, bookedAt := row0.bookedAt, lastUpdate := b
            tickets := insertKey (row0.tickets.getD []) eP.ticketID
              { tk0 with refundedAt := eR.header.publishedAt } })) K
          (marshalReadModel
            { bookingID := K, bookedAt := row0.bookedAt, lastUpdate := a
              tickets := insertKey
                (insertKey (row0.tickets.getD []) eP.ticketID
                  { tk0 with refundedAt := eR.header.publishedAt })
                eP.ticketID
                { tk0 with refundedAt := eR.header.publishedAt
                           printedAt := eP.header.publishedAt
                           printedFileName := eP.fileName } })) := by
    unfold OnTicketPrinted
    exact updateByTicketID_found a _ eP.ticketID _ K _ _ hf1r rfl
      (by simp [marshalReadModel, lookupKey_insertKey_self])
  refine ⟨_, _, _, _, h1, h2, h1r, h2r, ?_⟩
  intro d hd
  simp only [List.mem_cons, List.not_mem_nil, or_false] at hd
  rcases hd with hd | hd
  · subst hd
    refine ⟨K, _, lookupKey_insertKey_self _ _ _, ?_⟩
    exact ⟨_, lookupKey_insertKey_self _ _ _, rfl, rfl, rfl⟩
  · subst hd
    refine ⟨K, _, lookupKey_insertKey_self _ _ _, ?_⟩
    exact ⟨_, lookupKey_insertKey_self _ _ _, rfl, rfl, rfl⟩

end Tickets

namespace Tickets

/-- A concrete confirmed ticket entry used in the field-isolation witness. -/
def c3Ticket : OpsTicket :=
  { priceAmount := "30", priceCurrency := "USD", customerEmail := "a@b.c"
    confirmedAt := 7, printedAt := 0, printedFileName := ""
    receiptIssuedAt := 0, receiptNumber := "", refundedAt := 0 }

/-- A concrete table holding booking B1 with ticket T1. -/
def c3Db : Db :=
  [("B1", { bookingID := "B1", bookedAt := 5, lastUpdate := 5
            tickets := some [("T1", c3Ticket)] })]

/-- A concrete TicketPrinted_v1 event for T1. -/
def c3Printed : TicketPrinted_v1 :=
  { header := { id := "mp", publishedAt := 10 }, ticketID := "T1"
    fileName := "T1-ticket.html" }

/-- A concrete TicketRefunded_v1 event for T1. -/
def c3Refunded : TicketRefunded_v1 :=
  { header := { id := "mr", publishedAt := 11 }, ticketID := "T1" }

/-- C3 witness: the Printed and Refunded events for ticket T1 of booking
B1, applied in both orders over the concrete table. -/
theorem printed_refunded_field_isolation_witness :
    c3Refunded.ticketID = c3Printed.ticketID ∧
    (keysOf c3Db).Nodup ∧
    DbWellFormed c3Db ∧
    (findByTicketID c3Db c3Printed.ticketID).isSome = true ∧
    (∃ db1 db2 db1r db2r,
      OnTicketPrinted 10 c3Db c3Printed = .ok db1 ∧
      OnTicketRefunded 11 db1 c3Refunded = .ok db2 ∧
      OnTicketRefunded 11 c3Db c3Refunded = .ok db1r ∧
      OnTicketPrinted 10 db1r c3Printed = .ok db2r ∧
      (∀ d ∈ [db2, db2r], ∃ K row, lookupKey d K = some row ∧
        ∃ tk, lookupKey (row.tickets.getD []) c3Printed.ticketID = some tk ∧
          tk.printedAt = c3Printed.header.publishedAt ∧
          tk.printedFileName = c3Printed.fileName ∧
          tk.refundedAt = c3Refunded.header.publishedAt)) :=
  ⟨by decide, by decide, by decide, by decide,
    printed_refunded_field_isolation c3Db c3Printed c3Refunded 10 11
      (by decide) (by decide) (by decide) (by decide)⟩

end Tickets
